import Mathlib

/-!
Shallow embedding of the pricing (frete) core of the `correios` Go package.
Pure data and control flow are translated from the Go source; HTTP transport
and XML tokenisation are abstracted as an oracle argument `net` that returns
either a transport/decode error or the list of raw per-service records that
the XML decoder would produce.  The shopspring decimal dependency is modelled
with `Rat` values: `NewFromString` is embedded for its plain decimal fragment
(sign, digits, one optional fractional dot; scientific-exponent inputs, which
never occur in carrier price strings, are not modelled).
-/

namespace Correios

/-- Service identifiers are plain strings in the source (`type TipoServico string`). -/
abbrev TipoServico := String

/-- Carrier error codes are plain integers in the source (`type TipoErro int`). -/
abbrev TipoErro := Int

/-- Request batching mode (`type RequestMode int` with iota constants
`RequestModeAuto = 0`, `RequestModeSingle = 1`, `RequestModeCombined = 2`).
The zero value of the Go type is `Auto`. -/
inductive RequestMode where
  | Auto : RequestMode
  | Single : RequestMode
  | Combined : RequestMode
deriving DecidableEq, Repr

def SvcSEDEXVarejo : TipoServico := "04014"

def SvcSEDEXACobrarVarejo : TipoServico := "40045"

def SvcSEDEX10Varejo : TipoServico := "40215"

def SvcSEDEXHojeVarejo : TipoServico := "40290"

def SvcPACVarejo : TipoServico := "04510"

def SvcPACComContrato : TipoServico := "04669"

def SvcSEDEXComContrato : TipoServico := "04162"

def ErrTipoServicoInvalido : TipoErro := -1

def ErrCepOrigemInvalido : TipoErro := -2

def ErrCepDestinoInvalido : TipoErro := -3

def ErrCepPesoExcedido : TipoErro := -4

def ErrValorDeclaradoAlto10k : TipoErro := -5

def ErrServicoIndisponivelTrecho : TipoErro := -6

def ErrValorDeclaradoObrigatorio : TipoErro := -7

def ErrMaoPropriaIndisponivel : TipoErro := -8

def ErrAvisoRecebimentoIndisponivel : TipoErro := -9

def ErrPrecificacaoIndisponivel : TipoErro := -10

def ErrInformarDimensoes : TipoErro := -11

def ErrComprimento : TipoErro := -12

def ErrLargura : TipoErro := -13

def ErrAltura : TipoErro := -14

def ErrComprimento105 : TipoErro := -15

def ErrLargura105 : TipoErro := -16

def ErrAltura105 : TipoErro := -17

def ErrAlturaInferior : TipoErro := -18

def ErrLarguraInferior : TipoErro := -20

def ErrComprimentoInferior : TipoErro := -22

def ErrDimensoesSoma : TipoErro := -23

def ErrComprimento2 : TipoErro := -24

def ErrDiametro : TipoErro := -25

def ErrComprimento3 : TipoErro := -26

def ErrDiametro2 : TipoErro := -27

def ErrComprimento4 : TipoErro := -28

def ErrDiametro91 : TipoErro := -29

def ErrComprimento18 : TipoErro := -30

def ErrDiametro5 : TipoErro := -31

def ErrSomaDiametro : TipoErro := -32

def ErrSistemaIndisponivel : TipoErro := -33

def ErrCodigoOuSenha : TipoErro := -34

def ErrSenha : TipoErro := -35

def ErrSemContrato : TipoErro := -36

def ErrSemServicoAtivo : TipoErro := -37

def ErrServicoIndisponivelAdmin : TipoErro := -38

def ErrPesoExcedidoEnvelope : TipoErro := -39

def ErrInformarDimensoes2 : TipoErro := -40

def ErrComprimento60 : TipoErro := -41

def ErrComprimento16 : TipoErro := -42

def ErrComprimentoLargura120 : TipoErro := -43

def ErrLarguraInferior2 : TipoErro := -44

def ErrLarguraSuperior60 : TipoErro := -44

def ErrErroCalculoTarifa : TipoErro := -888

/-- Go source literal is the octal `006`, value 6. -/
def ErrLocalidadeOrigem : TipoErro := 6

/-- Go source literal is the octal `007`, value 7. -/
def ErrLocalidadeDestino : TipoErro := 7

def ErrServicoIndisponivelTrecho2 : TipoErro := 8

def ErrAreaDeRiscoCEPInicial : TipoErro := 9

/-- Go source literal is the octal `010`, value 8. -/
def ErrAreaPrazoDiferenciado : TipoErro := 8

/-- Go source literal is the octal `011`, value 9. -/
def ErrAreaDeRiscoCEPs : TipoErro := 9

def ErrIndisponivel : TipoErro := 7

def ErrIndeterminado : TipoErro := 99

/-- The request structure (`type FreteRequest struct`).  Decimal fields of the
shopspring dependency are modelled as exact rationals. -/
structure FreteRequest where
  CepOrigem : String
  CepDestino : String
  PesoKg : Rat
  ComprimentoCm : Rat
  AlturaCm : Rat
  LarguraCm : Rat
  Servicos : List TipoServico
  ValorDeclarado : Rat
  AvisoRecebimento : Bool
  CdEmpresa : String
  DsSenha : String
  Mode : RequestMode
deriving DecidableEq, Repr

/-- Error payload attached to one service entry (`type ServicoResponseError struct`). -/
structure ServicoResponseError where
  Codigo : TipoErro
deriving DecidableEq, Repr

/-- Parsed per-service result (`type ServicoResponse struct`).  The Go field
`Erro *ServicoResponseError` (a nilable pointer) is modelled as an `Option`. -/
structure ServicoResponse where
  Tipo : TipoServico
  Preco : Rat
  PrazoEntregaDias : Int
  PrecoSemAdicionais : Rat
  PrecoMaoPropria : Rat
  PrecoAvisoRecebimento : Rat
  PrecoValorDeclarado : Rat
  EntregaDomiciliar : Bool
  EntregaSabado : Bool
  Erro : Option ServicoResponseError
  ErroMsg : String
deriving DecidableEq, Repr

/-- Raw XML record for one service (`type servicoResp struct`), exactly the
fields the XML decoder fills in before `CalcularFrete` converts them. -/
structure ServicoResp where
  Codigo : String
  Valor : String
  PrazoEntrega : Int
  ValorSemAdicionais : String
  ValorMaoPropria : String
  ValorAvisoRecebimento : String
  ValorValorDeclarado : String
  EntregaDomiciliar : String
  EntregaSabado : String
  Erro : Int
  MsgErro : String
deriving DecidableEq, Repr

/-- The response map (`type FreteResponse struct` with a
`map[TipoServico]ServicoResponse`).  The Go map is modelled as an association
list with unique keys and replace-on-collision insertion, which matches the
observable lookup behaviour of the map writes in the source. -/
structure FreteResponse where
  Servicos : List (TipoServico × ServicoResponse)
deriving DecidableEq, Repr

/-- Defaults of `NewFreteRequest`: weight 0.5 kg, 16 x 11 x 5 cm, the two
retail services, declared value 0.  Fields omitted from the Go literal
(`AvisoRecebimento`, `CdEmpresa`, `DsSenha`, `Mode`) take the Go zero values. -/
def newFreteRequest (cepOrigem cepDestino : String) : FreteRequest :=
  { CepOrigem := cepOrigem
    CepDestino := cepDestino
    PesoKg := (1 : Rat) / 2
    ComprimentoCm := 16
    LarguraCm := 11
    AlturaCm := 5
    Servicos := [SvcSEDEXVarejo, SvcPACVarejo]
    ValorDeclarado := 0
    AvisoRecebimento := false
    CdEmpresa := ""
    DsSenha := ""
    Mode := RequestMode.Auto }

/-- Numeric value of a digit list, most significant digit first. -/
def digitsVal (cs : List Char) : Nat :=
  cs.foldl (fun a c => a * 10 + (c.toNat - 48)) 0

/-- Splitting a character list on the dot character, mirroring the
`strings.Split(value, ".")` step of the decimal dependency: a list of
separator-free segments, one more segment than there are dots. -/
def splitOnDot : List Char → List (List Char)
  | [] => [[]]
  | c :: t =>
    if c = '.' then [] :: splitOnDot t
    else
      match splitOnDot t with
      | h :: r => (c :: h) :: r
      | [] => [[c]]

/-- Integer parse of an optionally signed digit string, mirroring the
`big.Int.SetString(s, 10)` step: a sign prefix followed by at least one
digit, nothing else. -/
def intStrVal : List Char → Option Int
  | '-' :: t => if t ≠ [] ∧ t.all Char.isDigit then some (-(digitsVal t : Int)) else none
  | '+' :: t => if t ≠ [] ∧ t.all Char.isDigit then some (digitsVal t : Int) else none
  | t => if t ≠ [] ∧ t.all Char.isDigit then some (digitsVal t : Int) else none

/-- Plain-decimal fragment of the decimal dependency used by the parser
(`decimal.NewFromString`): split on the dot, require at most one dot,
concatenate the integer and fractional digits and scale by the fractional
length.  Scientific-exponent inputs, which the carrier never emits in price
fields, are not modelled and fail here. -/
def newFromString (s : String) : Option Rat :=
  match splitOnDot s.data with
  | [ip] => (intStrVal ip).map (fun n => (n : Rat))
  | [ip, fp] => (intStrVal (ip ++ fp)).map (fun n => (n : Rat) / (10 : Rat) ^ fp.length)
  | _ => none

/-- Value of the Go pattern `d, _ := decimal.NewFromString(s)`: the parse
error is discarded, leaving the zero decimal on failure. -/
def newFromStringD (s : String) : Rat :=
  (newFromString s).getD 0

/-- Character-level body of `fixWrongDecimals`.  The source calls
`strings.Replace(ds, ",", ".", -1)`; for a one-character pattern replaced
everywhere this is exactly a character map. -/
def replaceCommas : List Char → List Char
  | [] => []
  | c :: t => (if c = ',' then '.' else c) :: replaceCommas t

/-- Comma-to-period price normalisation (`func fixWrongDecimals`). -/
def fixWrongDecimals (ds : String) : String :=
  ⟨replaceCommas ds.data⟩

/-- Conversion of one raw XML record into a `ServicoResponse`, translated from
the loop body of `CalcularFrete` over `vlov.Values`: every field of the Go
zero value `ServicoResponse{}` is overwritten except `Erro`/`ErroMsg`, which
are only set when the raw integer error field is non-zero. -/
def parseServicoResp (v : ServicoResp) : ServicoResponse :=
  { Tipo := v.Codigo
    Preco := newFromStringD (fixWrongDecimals v.Valor)
    PrazoEntregaDias := v.PrazoEntrega
    PrecoSemAdicionais := newFromStringD (fixWrongDecimals v.ValorSemAdicionais)
    PrecoMaoPropria := newFromStringD (fixWrongDecimals v.ValorMaoPropria)
    PrecoAvisoRecebimento := newFromStringD (fixWrongDecimals v.ValorAvisoRecebimento)
    PrecoValorDeclarado := newFromStringD (fixWrongDecimals v.ValorValorDeclarado)
    EntregaDomiciliar := v.EntregaDomiciliar == "S"
    EntregaSabado := v.EntregaSabado == "S"
    Erro := if v.Erro ≠ 0 then some ⟨v.Erro⟩ else none
    ErroMsg := if v.Erro ≠ 0 then v.MsgErro else "" }

/-- Character-wise lowercasing, modelling the ASCII behaviour of the
`strings.ToLower` call in `isCharset`; every listed charset name is ASCII,
so the comparisons below coincide with the Go ones on ASCII input. -/
def toLowerGo (s : String) : String :=
  ⟨s.data.map Char.toLower⟩

/-- Case-insensitive membership test (`func isCharset`): the candidate and
every listed name are lowercased before comparison. -/
def isCharset (charset : String) (names : List String) : Bool :=
  names.any (fun n => toLowerGo charset == toLowerGo n)

/-- Alias list of `IsCharsetISO88591`, verbatim from the source. -/
def iso88591Names : List String :=
  ["ISO_8859-1:1987", "ISO-8859-1", "iso-ir-100", "ISO_8859-1", "latin1",
   "l1", "IBM819", "CP819", "csISOLatin1"]

/-- Predicate `IsCharsetISO88591`. -/
def IsCharsetISO88591 (charset : String) : Bool :=
  isCharset charset iso88591Names

/-- Alias list of `IsCharsetUTF8`, verbatim from the source. -/
def utf8Names : List String :=
  ["UTF-8", ""]

/-- Predicate `IsCharsetUTF8`. -/
def IsCharsetUTF8 (charset : String) : Bool :=
  isCharset charset utf8Names

/-- Outcome of `func CharsetReader`: the identity reader, the Latin-1
decoder, or the error return carrying the diagnostic message. -/
inductive CharsetChoice where
  | identity : CharsetChoice
  | iso88591 : CharsetChoice
  | unsupported : String → CharsetChoice
deriving DecidableEq, Repr

/-- Charset selection (`func CharsetReader`): the UTF-8 case is tested first,
then the Latin-1 aliases, and any other name is a hard error. -/
def CharsetReader (charset : String) : CharsetChoice :=
  if IsCharsetUTF8 charset then CharsetChoice.identity
  else if IsCharsetISO88591 charset then CharsetChoice.iso88591
  else CharsetChoice.unsupported ("CharsetReader: unexpected charset: " ++ charset)

/-- State of the Latin-1 decoder (`type CharsetISO88591er struct`): the
remaining input bytes of the wrapped reader and the pending bytes of the
internal buffer.  `NewCharsetISO88591` starts with an empty buffer. -/
structure ISO88591State where
  input : List Nat
  buf : List Nat
deriving DecidableEq, Repr

/-- UTF-8 encoding of a code point below 2048, which covers every Latin-1
byte: one byte below 128, otherwise the standard two-byte form.  This is the
`bytes.Buffer.WriteRune` encoding used by the decoder. -/
def utf8EncodeRune (r : Nat) : List Nat :=
  if r < 128 then [r] else [192 + r / 64, 128 + r % 64]

/-- Decoding of a standard two-byte UTF-8 sequence back to its code point. -/
def utf8Decode2 (b1 b2 : Nat) : Nat :=
  (b1 - 192) * 64 + (b2 - 128)

/-- One step of `CharsetISO88591er.ReadByte`: when the buffer holds pending
bytes it is drained first without touching the input; otherwise one input
byte is consumed and either passed through (below 128) or expanded, the
first expansion byte returned and the rest buffered.  `none` models the
propagated end-of-input error of the wrapped reader. -/
def readByte (s : ISO88591State) : Option (Nat × ISO88591State) :=
  match s.buf with
  | b :: rest => some (b, ⟨s.input, rest⟩)
  | [] =>
    match s.input with
    | [] => none
    | r :: rin =>
      if r < 128 then some (r, ⟨rin, []⟩)
      else some (192 + r / 64, ⟨rin, [128 + r % 64]⟩)

/-- Decrease of the decoder measure under one `readByte` step. -/
theorem readByte_measure {s : ISO88591State} {b : Nat} {s' : ISO88591State}
    (h : readByte s = some (b, s')) :
    4 * s'.input.length + s'.buf.length < 4 * s.input.length + s.buf.length := by
  rcases s with ⟨input, buf⟩
  cases buf with
  | cons x xs =>
    simp only [readByte, Option.some.injEq, Prod.mk.injEq] at h
    obtain ⟨hb, hs⟩ := h
    subst hs
    simp
  | nil =>
    cases input with
    | nil => simp [readByte] at h
    | cons r rin =>
      simp only [readByte] at h
      by_cases hr : r < 128
      · rw [if_pos hr] at h
        simp only [Option.some.injEq, Prod.mk.injEq] at h
        obtain ⟨hb, hs⟩ := h
        subst hs
        simp only [List.length_cons, List.length_nil]
        omega
      · rw [if_neg hr] at h
        simp only [Option.some.injEq, Prod.mk.injEq] at h
        obtain ⟨hb, hs⟩ := h
        subst hs
        simp only [List.length_cons, List.length_nil]
        omega

/-- Exhaustive drain of the decoder: successive `ReadByte` calls until the
input is exhausted. -/
def readAll (s : ISO88591State) : List Nat :=
  match h : readByte s with
  | none => []
  | some (b, s') => b :: readAll s'
termination_by 4 * s.input.length + s.buf.length
decreasing_by exact readByte_measure h

/-- Bulk read method of the decoder (`func (cs *CharsetISO88591er) Read`):
always zero bytes and the invalid-operation error `os.ErrInvalid`. -/
def isoBulkRead (_s : ISO88591State) (_p : List Nat) : Nat × Option String :=
  (0, some "invalid argument")

/-- Query parameters (`url.Values`), modelled as an association list with
unique keys; `urlSet` reproduces the overwrite semantics of `Values.Set`. -/
abbrev UrlValues := List (String × String)

/-- The `url.Values.Set` operation: replace the value of an existing key,
otherwise add the pair. -/
def urlSet (vs : UrlValues) (key val : String) : UrlValues :=
  if vs.any (fun p => p.1 == key) then
    vs.map (fun p => if p.1 == key then (key, val) else p)
  else vs ++ [(key, val)]

/-- Lookup of a query parameter. -/
def urlGet (vs : UrlValues) (key : String) : Option String :=
  (vs.find? (fun p => p.1 == key)).map (fun p => p.2)

/-- The `strings.Trim(s, "-")` call on the postal codes: leading and trailing
hyphens removed from both ends. -/
def trimHyphens (s : String) : String :=
  ⟨((s.data.dropWhile (fun c => c = '-')).reverse.dropWhile (fun c => c = '-')).reverse⟩

/-- Query-parameter construction of the single-call path of `CalcularFrete`
(the block of `v.Set` calls).  The rendering of the shopspring decimal
fields (`Decimal.String`) is abstracted as the argument `decStr`; every
theorem below holds for an arbitrary renderer. -/
def buildValues (decStr : Rat → String) (req : FreteRequest) : UrlValues :=
  let v := urlSet [] "sCepOrigem" (trimHyphens req.CepOrigem)
  let v := urlSet v "sCepDestino" (trimHyphens req.CepDestino)
  let v := urlSet v "nVlPeso" (decStr req.PesoKg)
  let v := urlSet v "nCdFormato" "1"
  let v := urlSet v "nVlComprimento" (decStr req.ComprimentoCm)
  let v := urlSet v "nVlAltura" (decStr req.AlturaCm)
  let v := urlSet v "nVlLargura" (decStr req.LarguraCm)
  let v := urlSet v "StrRetorno" "xml"
  let v := urlSet v "nCdServico" (String.intercalate "," req.Servicos)
  let v := urlSet v "nVlValorDeclarado" (decStr req.ValorDeclarado)
  let v := if req.AvisoRecebimento then urlSet v "sCdAvisoRecebimento" "S" else v
  let v := if req.CdEmpresa ≠ "" then urlSet (urlSet v "nCdEmpresa" req.CdEmpresa) "sDsSenha" req.DsSenha else v
  v

/-- Map write `output.Servicos[k] = v` on the association-list model. -/
def mapInsert (m : List (TipoServico × ServicoResponse)) (k : TipoServico)
    (v : ServicoResponse) : List (TipoServico × ServicoResponse) :=
  if m.any (fun p => p.1 == k) then
    m.map (fun p => if p.1 == k then (k, v) else p)
  else m ++ [(k, v)]

/-- The merge loop `for k2, v2 := range rsp.Servicos { r00.Servicos[k2] = v2 }`.
Go map iteration order is unspecified; entry lists here carry unique keys, so
the fold order is the list order of the model. -/
def mergeServicos (acc entries : List (TipoServico × ServicoResponse)) :
    List (TipoServico × ServicoResponse) :=
  entries.foldl (fun a p => mapInsert a p.1 p.2) acc

/-- Conversion loop over the decoded `cServico` records (`for _, v := range
vlov.Values`), building the response map. -/
def parseServicos (values : List ServicoResp) : List (TipoServico × ServicoResponse) :=
  values.foldl (fun m v => mapInsert m (parseServicoResp v).Tipo (parseServicoResp v)) []

/-- Single-call path of `CalcularFrete` (everything after the fan-out block):
build the parameters, perform the network call and XML decode (the oracle
`net`), and convert the decoded records.  A transport or decode error is
returned as is, matching the `return nil, err` branches. -/
def calcularFreteSingle (net : UrlValues → Except String (List ServicoResp))
    (decStr : Rat → String) (req : FreteRequest) : Except String FreteResponse :=
  match net (buildValues decStr req) with
  | Except.error e => Except.error e
  | Except.ok values => Except.ok ⟨parseServicos values⟩

/-- Fan-out guard of `CalcularFrete`: more than one service and either Auto
mode without a company code or Single mode. -/
def fanOutCond (req : FreteRequest) : Bool :=
  decide (1 < req.Servicos.length) &&
    ((req.Mode == RequestMode.Auto && req.CdEmpresa == "") || req.Mode == RequestMode.Single)

/-- Per-service clone built by the fan-out loop of `CalcularFrete`.  The Go
struct literal lists every field except `Mode`, which therefore takes the Go
zero value `RequestModeAuto` in the clone. -/
def cloneForService (req : FreteRequest) (s : TipoServico) : FreteRequest :=
  { CepOrigem := req.CepOrigem
    CepDestino := req.CepDestino
    PesoKg := req.PesoKg
    ComprimentoCm := req.ComprimentoCm
    AlturaCm := req.AlturaCm
    LarguraCm := req.LarguraCm
    Servicos := [s]
    ValorDeclarado := req.ValorDeclarado
    AvisoRecebimento := req.AvisoRecebimento
    CdEmpresa := req.CdEmpresa
    DsSenha := req.DsSenha
    Mode := RequestMode.Auto }

/-- Fan-out loop of `CalcularFrete` over the clone list: a failing sub-call
is skipped unless it is the last one (`len(reqs) == i+1`), in which case the
accumulated map is returned together with that error; a successful sub-call
has its entries merged into the accumulator. -/
def fanLoop (call : FreteRequest → Except String FreteResponse) :
    List FreteRequest → List (TipoServico × ServicoResponse) →
    List (TipoServico × ServicoResponse) × Option String
  | [], acc => (acc, none)
  | r :: rest, acc =>
    match call r with
    | Except.error e => if rest.isEmpty then (acc, some e) else fanLoop call rest acc
    | Except.ok rsp => fanLoop call rest (mergeServicos acc rsp.Servicos)

/-- The exported pricing operation `CalcularFrete` for a non-nil request,
returning the Go result pair (response pointer, error).  The recursive
sub-calls of the Go fan-out always receive a one-service clone, on which the
fan-out guard is false (theorem `fanOutCond_clone`), so the recursion is
unfolded once here: each sub-call runs the single-call path directly. -/
def calcularFrete (net : UrlValues → Except String (List ServicoResp))
    (decStr : Rat → String) (req : FreteRequest) :
    Option FreteResponse × Option String :=
  if fanOutCond req then
    let reqs := req.Servicos.map (cloneForService req)
    let out := fanLoop (calcularFreteSingle net decStr) reqs []
    (some ⟨out.1⟩, out.2)
  else
    match calcularFreteSingle net decStr req with
    | Except.error e => (none, some e)
    | Except.ok resp => (some resp, none)

/-- Top-level entry with the nil-request guard of the source. -/
def calcularFreteOpt (net : UrlValues → Except String (List ServicoResp))
    (decStr : Rat → String) : Option FreteRequest →
    Option FreteResponse × Option String
  | none => (none, some "nil request")
  | some req => calcularFrete net decStr req

/-- Accumulated map of the successful sub-calls of a fan-out prefix: failing
calls leave the accumulator untouched, successful ones merge their entries. -/
def accOf (call : FreteRequest → Except String FreteResponse)
    (rs : List FreteRequest) (acc : List (TipoServico × ServicoResponse)) :
    List (TipoServico × ServicoResponse) :=
  rs.foldl (fun a r =>
    match call r with
    | Except.error _ => a
    | Except.ok rsp => mergeServicos a rsp.Servicos) acc

/-- The `SetServicos` mutation: the service list is rebuilt from scratch by
appending each argument in order (`r.Servicos = make(...); ... append`). -/
def setServicos (r : FreteRequest) (srvs : List TipoServico) : FreteRequest :=
  { r with Servicos := srvs.foldl (fun acc v => acc ++ [v]) [] }

/-- The `AppendServico` mutation: the request is returned unchanged when the
service is already listed, otherwise the service is appended. -/
def appendServico (r : FreteRequest) (srv : TipoServico) : FreteRequest :=
  if r.Servicos.contains srv then r
  else { r with Servicos := r.Servicos ++ [srv] }

/-- Modelled from the spec: the process-wide Fallback Policy triple.  The
variables `FallbackFunc`, `AlwaysUseFallback` and `GlobalTimeout` are
declared in `fallback.go`, but the source file that wires them into the
pricing call is not among the sources (the test file also references the
missing `StupidSingleServiceMode` switch from that file); the dispatch is
therefore modelled from section 4.5 of the spec.  The timeout is a duration
in nanoseconds, as in the Go declaration. -/
structure FallbackConfig where
  fallbackFunc : Option (UrlValues → Option FreteResponse × Option String)
  alwaysUseFallback : Bool
  globalTimeout : Nat

/-- Modelled from the spec: the caller context, reduced to the only feature
the Fallback Policy consults, namely whether a deadline is carried. -/
structure GoContext where
  deadline : Option Nat

/-- Modelled from the spec: the timeout under which the live network call
runs, which is the global timeout exactly when the caller context carries no
deadline of its own. -/
def effectiveTimeout (cfg : FallbackConfig) (ctx : GoContext) : Option Nat :=
  match ctx.deadline with
  | some _ => none
  | none => some cfg.globalTimeout

/-- Modelled from the spec: the pricing operation under the Fallback Policy.
When the substitute function is set it is invoked on the request parameters
instead of the live network call (the always-use-fallback flag can only
force a substitute that exists, so a set substitute is the trigger);
otherwise the live call runs under the effective timeout. -/
def calcularFreteFallback (cfg : FallbackConfig) (ctx : GoContext)
    (net : Option Nat → UrlValues → Except String (List ServicoResp))
    (decStr : Rat → String) (req : FreteRequest) :
    Option FreteResponse × Option String :=
  let vals := buildValues decStr req
  match cfg.fallbackFunc with
  | some fb => fb vals
  | none =>
    match net (effectiveTimeout cfg ctx) vals with
    | Except.error e => (none, some e)
    | Except.ok values => (some ⟨parseServicos values⟩, none)

/-- The nine ISO-8859-1 alias names of the source, lowercased; used to state
the charset-selection property. -/
def isoLoweredNames : List String :=
  ["iso_8859-1:1987", "iso-8859-1", "iso-ir-100", "iso_8859-1", "latin1",
   "l1", "ibm819", "cp819", "csisolatin1"]

/-- One-service clones never satisfy the fan-out guard, which justifies the
one-step unfolding of the Go recursion in `calcularFrete`. -/
theorem fanOutCond_clone (req : FreteRequest) (s : TipoServico) :
    fanOutCond (cloneForService req s) = false := by
  simp [fanOutCond, cloneForService]

/-- Characterisation of the UTF-8 alias test by lowercased name. -/
theorem utf8_char (cs : String) :
    IsCharsetUTF8 cs = true ↔ (toLowerGo cs = "utf-8" ∨ toLowerGo cs = "") := by
  simp [IsCharsetUTF8, isCharset, utf8Names, List.any_eq_true]
  rw [show toLowerGo "UTF-8" = "utf-8" from rfl, show toLowerGo "" = "" from rfl]

/-- Characterisation of the ISO-8859-1 alias test by lowercased name. -/
theorem iso_char (cs : String) :
    IsCharsetISO88591 cs = true ↔ toLowerGo cs ∈ isoLoweredNames := by
  simp only [IsCharsetISO88591, isCharset, iso88591Names, List.any_eq_true, List.mem_cons,
    List.mem_singleton, List.not_mem_nil, beq_iff_eq, isoLoweredNames]
  constructor
  · rintro ⟨x, hx, he⟩
    simp only [List.mem_cons, List.not_mem_nil, or_false] at hx
    rcases hx with h | h | h | h | h | h | h | h | h <;> subst h <;> rw [he] <;> decide
  · intro h
    rcases h with h | h | h | h | h | h | h | h | h
    · exact ⟨"ISO_8859-1:1987", by simp, by rw [h]; decide⟩
    · exact ⟨"ISO-8859-1", by simp, by rw [h]; decide⟩
    · exact ⟨"iso-ir-100", by simp, by rw [h]; decide⟩
    · exact ⟨"ISO_8859-1", by simp, by rw [h]; decide⟩
    · exact ⟨"latin1", by simp, by rw [h]; decide⟩
    · exact ⟨"l1", by simp, by rw [h]; decide⟩
    · exact ⟨"IBM819", by simp, by rw [h]; decide⟩
    · exact ⟨"CP819", by simp, by rw [h]; decide⟩
    · rcases h with h | h
      · exact ⟨"csISOLatin1", by simp, by rw [h]; decide⟩
      · exact h.elim

/-- C4: matched case-insensitively, `CharsetReader` returns the identity
reader exactly for the empty name and UTF-8, the ISO-8859-1 byte decoder
exactly for the nine documented aliases, and a non-nil error for every other
name, never silently assuming identity. -/
theorem claim_C4 (cs : String) :
    (CharsetReader cs = CharsetChoice.identity ↔
      (toLowerGo cs = "utf-8" ∨ toLowerGo cs = "")) ∧
    (CharsetReader cs = CharsetChoice.iso88591 ↔ toLowerGo cs ∈ isoLoweredNames) ∧
    ((toLowerGo cs ≠ "utf-8" ∧ toLowerGo cs ≠ "" ∧ toLowerGo cs ∉ isoLoweredNames) →
      CharsetReader cs =
        CharsetChoice.unsupported ("CharsetReader: unexpected charset: " ++ cs)) := by
  have hU := utf8_char cs
  have hI := iso_char cs
  refine ⟨?_, ?_, ?_⟩
  · unfold CharsetReader
    by_cases h : IsCharsetUTF8 cs = true
    · rw [if_pos h]
      simpa using hU.mp h
    · rw [if_neg h]
      constructor
      · intro hc
        by_cases h2 : IsCharsetISO88591 cs = true
        · rw [if_pos h2] at hc
          exact CharsetChoice.noConfusion hc
        · rw [if_neg h2] at hc
          exact CharsetChoice.noConfusion hc
      · intro hc
        exact absurd (hU.mpr hc) h
  · unfold CharsetReader
    by_cases h : IsCharsetUTF8 cs = true
    · rw [if_pos h]
      constructor
      · intro hc
        exact CharsetChoice.noConfusion hc
      · intro hc
        rcases hU.mp h with h1 | h1 <;> (rw [h1] at hc; revert hc; decide)
    · rw [if_neg h]
      by_cases h2 : IsCharsetISO88591 cs = true
      · rw [if_pos h2]
        simpa using hI.mp h2
      · rw [if_neg h2]
        constructor
        · intro hc
          exact CharsetChoice.noConfusion hc
        · intro hc
          exact absurd (hI.mpr hc) h2
  · rintro ⟨h1, h2, h3⟩
    unfold CharsetReader
    have hu : ¬ IsCharsetUTF8 cs = true := fun hh => by
      rcases hU.mp hh with h | h <;> simp_all
    have hi : ¬ IsCharsetISO88591 cs = true := fun hh => h3 (hI.mp hh)
    rw [if_neg hu, if_neg hi]

/-- Witness for C4 at the concrete names of the spec scenarios: latin1 picks
the byte decoder and Shift-JIS is a hard failure. -/
theorem claim_C4_witness :
    CharsetReader "Shift-JIS" =
      CharsetChoice.unsupported ("CharsetReader: unexpected charset: " ++ "Shift-JIS") ∧
    CharsetReader "latin1" = CharsetChoice.iso88591 := by
  constructor
  · exact (claim_C4 "Shift-JIS").2.2 ⟨by decide, by decide, by decide⟩
  · exact (claim_C4 "latin1").2.1.mpr (by decide)

/-- C6: a parsed record has no error exactly when the raw integer error
field is zero; a non-zero code is copied exactly and the carrier message is
kept verbatim, while the numeric fields are populated from the raw strings
regardless. -/
theorem claim_C6 (v : ServicoResp) :
    ((parseServicoResp v).Erro = none ↔ v.Erro = 0) ∧
    (v.Erro ≠ 0 →
      (parseServicoResp v).Erro = some ⟨v.Erro⟩ ∧
      (parseServicoResp v).ErroMsg = v.MsgErro) ∧
    (parseServicoResp v).Preco = newFromStringD (fixWrongDecimals v.Valor) ∧
    (parseServicoResp v).PrazoEntregaDias = v.PrazoEntrega ∧
    (parseServicoResp v).PrecoSemAdicionais = newFromStringD (fixWrongDecimals v.ValorSemAdicionais) ∧
    (parseServicoResp v).PrecoMaoPropria = newFromStringD (fixWrongDecimals v.ValorMaoPropria) ∧
    (parseServicoResp v).PrecoAvisoRecebimento = newFromStringD (fixWrongDecimals v.ValorAvisoRecebimento) ∧
    (parseServicoResp v).PrecoValorDeclarado = newFromStringD (fixWrongDecimals v.ValorValorDeclarado) := by
  unfold parseServicoResp
  by_cases h : v.Erro = 0 <;> simp [h]

/-- Witness for C6 at a concrete record with carrier error code -3. -/
theorem claim_C6_witness :
    (parseServicoResp ⟨"04014", "0,00", 0, "", "", "", "", "", "", -3, "CEP de destino invalido"⟩).Erro =
      some ⟨-3⟩ ∧
    (parseServicoResp ⟨"04014", "0,00", 0, "", "", "", "", "", "", -3, "CEP de destino invalido"⟩).ErroMsg =
      "CEP de destino invalido" :=
  (claim_C6 ⟨"04014", "0,00", 0, "", "", "", "", "", "", -3, "CEP de destino invalido"⟩).2.1
    (by decide)

/-- Pointwise form of the comma replacement. -/
theorem replaceCommas_eq_map (cs : List Char) :
    replaceCommas cs = cs.map (fun c => if c = ',' then '.' else c) := by
  induction cs with
  | nil => rfl
  | cons c t ih => simp [replaceCommas, ih]

/-- C7: price normalisation replaces every comma by a period, the example
string 12,34 becomes 12.34 and parses to the rational 12.34, and a price
string that still fails to parse leaves the price field at the zero decimal
without marking the service as failed. -/
theorem claim_C7 (s : String) (v : ServicoResp) :
    fixWrongDecimals s = ⟨s.data.map (fun c => if c = ',' then '.' else c)⟩ ∧
    fixWrongDecimals "12,34" = "12.34" ∧
    newFromStringD "12.34" = (1234 : Rat) / 100 ∧
    (newFromString (fixWrongDecimals v.Valor) = none →
      (parseServicoResp v).Preco = 0 ∧ (v.Erro = 0 → (parseServicoResp v).Erro = none)) := by
  refine ⟨?_, by decide, ?_, ?_⟩
  · unfold fixWrongDecimals
    rw [replaceCommas_eq_map]
  · unfold newFromStringD
    rw [show newFromString "12.34" = some (((1234 : Int) : Rat) / (10 : Rat) ^ 2) from rfl]
    norm_num
  · intro h
    constructor
    · simp [parseServicoResp, newFromStringD, h]
    · intro h0
      simp [parseServicoResp, h0]

/-- Witness for C7 at a concrete unparseable price string. -/
theorem claim_C7_witness :
    (parseServicoResp ⟨"04014", "N/A", 0, "", "", "", "", "", "", 0, ""⟩).Preco = 0 ∧
    (parseServicoResp ⟨"04014", "N/A", 0, "", "", "", "", "", "", 0, ""⟩).Erro = none := by
  have h := (claim_C7 "" ⟨"04014", "N/A", 0, "", "", "", "", "", "", 0, ""⟩).2.2.2 (by decide)
  exact ⟨h.1, h.2 rfl⟩

/-- C10: the named error constants are not numerically injective: the two
-44 width constants coincide, and the octal literals 007, 010 and 011 make
three further pairs of distinct names share one value. -/
theorem claim_C10 :
    ErrLarguraInferior2 = ErrLarguraSuperior60 ∧
    ErrLarguraInferior2 = -44 ∧ ErrLarguraSuperior60 = -44 ∧
    ErrLocalidadeDestino = ErrIndisponivel ∧ ErrLocalidadeDestino = 7 ∧
    ErrAreaPrazoDiferenciado = ErrServicoIndisponivelTrecho2 ∧ ErrAreaPrazoDiferenciado = 8 ∧
    ErrAreaDeRiscoCEPs = ErrAreaDeRiscoCEPInicial ∧ ErrAreaDeRiscoCEPs = 9 :=
  ⟨rfl, rfl, rfl, rfl, rfl, rfl, rfl, rfl, rfl⟩

/-- One decoder step under a some result shortens the decoder measure. -/
theorem readAll_step {s : ISO88591State} {b : Nat} {s' : ISO88591State}
    (h : readByte s = some (b, s')) : readAll s = b :: readAll s' := by
  rw [readAll, h]

/-- The drain of an exhausted decoder is empty. -/
theorem readAll_nil {s : ISO88591State} (h : readByte s = none) : readAll s = [] := by
  rw [readAll, h]

/-- Buffered bytes are drained before any further input is consumed. -/
theorem readAll_buf (buf : List Nat) : ∀ input : List Nat,
    readAll ⟨input, buf⟩ = buf ++ readAll ⟨input, []⟩ := by
  induction buf with
  | nil => intro input; rfl
  | cons b rest ih =>
    intro input
    rw [readAll_step (show readByte ⟨input, b :: rest⟩ = some (b, ⟨input, rest⟩) from rfl)]
    rw [ih input]
    rfl

/-- The full drain of the decoder is the byte-wise UTF-8 expansion of the
input. -/
theorem readAll_flatMap (l : List Nat) :
    readAll ⟨l, []⟩ = l.flatMap utf8EncodeRune := by
  induction l with
  | nil => rw [readAll_nil (show readByte ⟨[], []⟩ = none from rfl)]; rfl
  | cons b t ih =>
    by_cases hb : b < 128
    · rw [readAll_step (show readByte ⟨b :: t, []⟩ = some (b, ⟨t, []⟩) from by
        simp [readByte, hb])]
      rw [ih]
      simp [utf8EncodeRune, hb, List.flatMap_cons]
    · rw [readAll_step (show readByte ⟨b :: t, []⟩ = some (192 + b / 64, ⟨t, [128 + b % 64]⟩) from by
        simp [readByte, hb])]
      rw [readAll_buf [128 + b % 64] t]
      rw [ih]
      simp [utf8EncodeRune, hb, List.flatMap_cons]

/-- C5: an input byte below 128 is returned unchanged in one call; a byte at
or above 128 is expanded to its two-byte UTF-8 form, the first byte returned
at once and the second buffered, and decoding the pair recovers the original
code point; draining the whole stream yields exactly the UTF-8 encoding of
the Latin-1 input; and the bulk read method always returns zero bytes and
the invalid-operation error. -/
theorem claim_C5 (l input : List Nat) (b : Nat) (st : ISO88591State) (p : List Nat) :
    (b < 128 → readByte ⟨b :: input, []⟩ = some (b, ⟨input, []⟩)) ∧
    (128 ≤ b →
      readByte ⟨b :: input, []⟩ = some (192 + b / 64, ⟨input, [128 + b % 64]⟩) ∧
      utf8EncodeRune b = [192 + b / 64, 128 + b % 64] ∧
      utf8Decode2 (192 + b / 64) (128 + b % 64) = b) ∧
    readAll ⟨l, []⟩ = l.flatMap utf8EncodeRune ∧
    isoBulkRead st p = (0, some "invalid argument") := by
  refine ⟨?_, ?_, readAll_flatMap l, rfl⟩
  · intro hb
    simp [readByte, hb]
  · intro hb
    have hb2 : ¬ b < 128 := by omega
    refine ⟨by simp [readByte, hb2], by simp [utf8EncodeRune, hb2], ?_⟩
    unfold utf8Decode2
    omega

/-- Witness for C5 at the concrete stream 72, 233, 33 (a Latin-1 e-acute
between two ASCII bytes). -/
theorem claim_C5_witness :
    readByte ⟨65 :: [200], []⟩ = some (65, ⟨[200], []⟩) ∧
    readByte ⟨233 :: [], []⟩ = some (192 + 233 / 64, ⟨[], [128 + 233 % 64]⟩) ∧
    utf8EncodeRune 233 = [192 + 233 / 64, 128 + 233 % 64] ∧
    utf8Decode2 (192 + 233 / 64) (128 + 233 % 64) = 233 ∧
    readAll ⟨[72, 233, 33], []⟩ = [72, 233, 33].flatMap utf8EncodeRune ∧
    isoBulkRead ⟨[], []⟩ [] = (0, some "invalid argument") := by
  have h1 := claim_C5 [72, 233, 33] [200] 65 ⟨[], []⟩ []
  have h2 := claim_C5 [72, 233, 33] [] 233 ⟨[], []⟩ []
  have h2a := h2.2.1 (by omega)
  exact ⟨h1.1 (by omega), h2a.1, h2a.2.1, h2a.2.2, h1.2.2.1, h1.2.2.2⟩

/-- Counterexample to C8 as stated: `SetServicos` copies its arguments
verbatim, so a duplicated argument leaves a duplicate in the service list. -/
theorem claim_C8_cex :
    ¬ (setServicos (newFreteRequest "01243000" "65299970")
        [SvcPACVarejo, SvcPACVarejo]).Servicos.Nodup := by
  decide

/-- Helper: rebuilding a list by repeated append reproduces the list. -/
theorem foldl_append_eq (l : List String) : ∀ acc : List String,
    l.foldl (fun a v => a ++ [v]) acc = acc ++ l := by
  induction l with
  | nil => intro acc; simp
  | cons x xs ih => intro acc; simp [List.foldl_cons, ih]

/-- C8 amended: `AppendServico` preserves uniqueness of the service list
(it refuses to add an identifier that is already present), while
`SetServicos` replaces the list with exactly its argument list, so it
preserves uniqueness exactly when the arguments are themselves free of
duplicates. -/
theorem claim_C8_amended (r : FreteRequest) (srvs : List TipoServico) (srv : TipoServico) :
    (setServicos r srvs).Servicos = srvs ∧
    (srvs.Nodup → (setServicos r srvs).Servicos.Nodup) ∧
    (r.Servicos.Nodup → (appendServico r srv).Servicos.Nodup) := by
  have hset : (setServicos r srvs).Servicos = srvs := by
    simp [setServicos, foldl_append_eq]
  refine ⟨hset, ?_, ?_⟩
  · intro h
    rw [hset]
    exact h
  · intro h
    unfold appendServico
    by_cases hc : r.Servicos.contains srv
    · rw [if_pos hc]
      exact h
    · rw [if_neg hc]
      have hnm : srv ∉ r.Servicos := by simpa using hc
      simp [List.nodup_append, h, hnm]

/-- Witness for C8 amended at concrete duplicate-free inputs. -/
theorem claim_C8_amended_witness :
    (setServicos (newFreteRequest "01243000" "65299970") [SvcSEDEX10Varejo]).Servicos.Nodup ∧
    (appendServico (newFreteRequest "01243000" "65299970") SvcSEDEX10Varejo).Servicos.Nodup := by
  refine ⟨?_, ?_⟩
  · exact (claim_C8_amended (newFreteRequest "01243000" "65299970") [SvcSEDEX10Varejo]
      SvcSEDEX10Varejo).2.1 (by decide)
  · exact (claim_C8_amended (newFreteRequest "01243000" "65299970") [SvcSEDEX10Varejo]
      SvcSEDEX10Varejo).2.2 (by decide)

/-- Counterexample to C9 as stated: on a fan-out-triggering request in
Single mode, the per-service clone does not share the batching-mode field;
the Go clone literal omits `Mode`, so the clone gets the zero mode Auto. -/
theorem claim_C9_cex :
    fanOutCond { newFreteRequest "01243000" "65299970" with Mode := RequestMode.Single } = true ∧
    (cloneForService { newFreteRequest "01243000" "65299970" with Mode := RequestMode.Single }
        SvcSEDEXVarejo).Mode ≠
      ({ newFreteRequest "01243000" "65299970" with Mode := RequestMode.Single } : FreteRequest).Mode := by
  constructor
  · decide
  · decide

/-- C9 amended: each fan-out clone has exactly its one assigned service and
copies every other field of the original except the batching-mode selector,
which is reset to the zero mode Auto. -/
theorem claim_C9_amended (req : FreteRequest) (s : TipoServico) :
    (cloneForService req s).Servicos = [s] ∧
    (cloneForService req s).Mode = RequestMode.Auto ∧
    (cloneForService req s).CepOrigem = req.CepOrigem ∧
    (cloneForService req s).CepDestino = req.CepDestino ∧
    (cloneForService req s).PesoKg = req.PesoKg ∧
    (cloneForService req s).ComprimentoCm = req.ComprimentoCm ∧
    (cloneForService req s).AlturaCm = req.AlturaCm ∧
    (cloneForService req s).LarguraCm = req.LarguraCm ∧
    (cloneForService req s).ValorDeclarado = req.ValorDeclarado ∧
    (cloneForService req s).AvisoRecebimento = req.AvisoRecebimento ∧
    (cloneForService req s).CdEmpresa = req.CdEmpresa ∧
    (cloneForService req s).DsSenha = req.DsSenha :=
  ⟨rfl, rfl, rfl, rfl, rfl, rfl, rfl, rfl, rfl, rfl, rfl, rfl⟩

/-- The nCdServico parameter of the built query is always the comma join of
the requested service identifiers, whatever the optional parameters add. -/
theorem urlGet_nCdServico (decStr : Rat → String) (req : FreteRequest) :
    urlGet (buildValues decStr req) "nCdServico" =
      some (String.intercalate "," req.Servicos) := by
  unfold buildValues
  by_cases h1 : req.AvisoRecebimento <;>
    by_cases h2 : req.CdEmpresa = "" <;>
      simp [h1, h2, urlSet, urlGet, List.find?]

/-- Unfolding of the fan-out loop at its final element: failures before the
last element only matter through the skipped merges, and the loop result is
decided by the outcome of the last sub-call. -/
theorem fanLoop_append_last (call : FreteRequest → Except String FreteResponse)
    (rs : List FreteRequest) (r : FreteRequest) :
    ∀ acc, fanLoop call (rs ++ [r]) acc =
      (match call r with
       | Except.error e => (accOf call rs acc, some e)
       | Except.ok rsp => (mergeServicos (accOf call rs acc) rsp.Servicos, none)) := by
  induction rs with
  | nil =>
    intro acc
    simp only [List.nil_append, fanLoop, accOf, List.foldl_nil]
    cases call r <;> simp [fanLoop]
  | cons x xs ih =>
    intro acc
    have hne : (xs ++ [r]).isEmpty = false := by simp
    cases hx : call x with
    | error e =>
      simp only [List.cons_append, fanLoop, hx, List.append_eq, hne, Bool.false_eq_true,
        if_false]
      rw [ih]
      simp [accOf, hx]
    | ok rsp =>
      simp only [List.cons_append, fanLoop, hx, List.append_eq]
      rw [ih]
      simp [accOf, hx]

/-- When every sub-call succeeds, the fan-out loop merges the entry lists of
all sub-responses in order and reports no error. -/
theorem fanLoop_allOk (call : FreteRequest → Except String FreteResponse)
    (rs : List FreteRequest) (rsps : List FreteResponse)
    (h : List.Forall₂ (fun r rsp => call r = Except.ok rsp) rs rsps) :
    ∀ acc, fanLoop call rs acc =
      ((rsps.map FreteResponse.Servicos).foldl mergeServicos acc, none) := by
  induction h with
  | nil => intro acc; simp [fanLoop]
  | cons hrel hrest ih =>
    intro acc
    simp only [fanLoop, hrel, List.map_cons, List.foldl_cons]
    exact ih _

/-- C1: the guard for fan-out holds exactly when more than one service is
requested and the mode is Auto without company credentials or Single; under
the guard the pricing call is the sequential fan-out over one-service
clones, whose merge (when all sub-calls succeed) copies every sub-response
entry into the aggregate keyed by service identifier; in every other case a
single combined call is issued whose nCdServico parameter joins all
requested identifiers with commas in request order. -/
theorem claim_C1 (net : UrlValues → Except String (List ServicoResp))
    (decStr : Rat → String) (req : FreteRequest) :
    (fanOutCond req = true ↔
      (1 < req.Servicos.length ∧
        ((req.Mode = RequestMode.Auto ∧ req.CdEmpresa = "") ∨ req.Mode = RequestMode.Single))) ∧
    (fanOutCond req = true →
      (∀ s, (cloneForService req s).Servicos = [s]) ∧
      calcularFrete net decStr req =
        (some ⟨(fanLoop (calcularFreteSingle net decStr) (req.Servicos.map (cloneForService req)) []).1⟩,
         (fanLoop (calcularFreteSingle net decStr) (req.Servicos.map (cloneForService req)) []).2)) ∧
    (fanOutCond req = false →
      calcularFrete net decStr req =
        (match calcularFreteSingle net decStr req with
         | Except.error e => (none, some e)
         | Except.ok resp => (some resp, none)) ∧
      urlGet (buildValues decStr req) "nCdServico" =
        some (String.intercalate "," req.Servicos)) ∧
    (∀ rsps : List FreteResponse,
      List.Forall₂ (fun r rsp => calcularFreteSingle net decStr r = Except.ok rsp)
        (req.Servicos.map (cloneForService req)) rsps →
      fanOutCond req = true →
      calcularFrete net decStr req =
        (some ⟨(rsps.map FreteResponse.Servicos).foldl mergeServicos []⟩, none)) := by
  refine ⟨?_, ?_, ?_, ?_⟩
  · simp [fanOutCond]
  · intro h
    exact ⟨fun s => rfl, by simp [calcularFrete, h]⟩
  · intro h
    constructor
    · simp only [calcularFrete, h, Bool.false_eq_true, if_false]
    · exact urlGet_nCdServico decStr req
  · intro rsps hfa h
    simp only [calcularFrete, h, if_true]
    rw [fanLoop_allOk _ _ _ hfa]

/-- Witness for C1: a combined call with credentials joins the two default
service codes, and a two-service fan-out with an all-ok oracle merges both
sub-responses. -/
theorem claim_C1_witness :
    urlGet
        (buildValues (fun _ => "")
          { newFreteRequest "01243000" "04041002" with CdEmpresa := "08082650", DsSenha := "n5f9t8" })
        "nCdServico" = some "04014,04510" ∧
    calcularFrete (fun _ => Except.ok []) (fun _ => "") (newFreteRequest "01243000" "04041002") =
      (some ⟨[]⟩, none) := by
  constructor
  · have h := (claim_C1 (fun _ => Except.ok []) (fun _ => "")
      { newFreteRequest "01243000" "04041002" with CdEmpresa := "08082650", DsSenha := "n5f9t8" }).2.2.1
      (by decide)
    exact h.2.trans (by decide)
  · have h := (claim_C1 (fun _ => Except.ok []) (fun _ => "")
      (newFreteRequest "01243000" "04041002")).2.2.2 [⟨[]⟩, ⟨[]⟩]
      (List.Forall₂.cons rfl (List.Forall₂.cons rfl List.Forall₂.nil))
      (by decide)
    exact h.trans (by decide)

/-- C2: during fan-out, the outcome is decided by the last sub-call: a
failure of a non-last sub-call is swallowed and iteration continues (it only
drops that sub-call from the accumulated map of successful sub-calls); a
failure of the last sub-call returns the accumulated map together with that
non-nil error; when the last sub-call succeeds the error is nil and the
response holds the entries of every successful sub-call. -/
theorem claim_C2 (net : UrlValues → Except String (List ServicoResp))
    (decStr : Rat → String) (req : FreteRequest)
    (pre : List FreteRequest) (lastr : FreteRequest)
    (h : fanOutCond req = true)
    (hsplit : req.Servicos.map (cloneForService req) = pre ++ [lastr]) :
    calcularFrete net decStr req =
      (match calcularFreteSingle net decStr lastr with
       | Except.error e =>
         (some ⟨accOf (calcularFreteSingle net decStr) pre []⟩, some e)
       | Except.ok rsp =>
         (some ⟨mergeServicos (accOf (calcularFreteSingle net decStr) pre []) rsp.Servicos⟩,
          none)) := by
  simp only [calcularFrete, h, if_true]
  rw [hsplit, fanLoop_append_last]
  cases calcularFreteSingle net decStr lastr <;> rfl

/-- Witness for C2: the spec scenario with three services in Single mode.
With an oracle failing on the middle service the call succeeds and holds the
entries of the first and third sub-calls; with an oracle failing on the last
service the call returns the first two entries together with the error. -/
theorem claim_C2_witness :
    calcularFrete
        (fun vals =>
          match urlGet vals "nCdServico" with
          | some c =>
            if c == "40045" then Except.error "timeout"
            else Except.ok [⟨c, "", 5, "", "", "", "", "S", "N", 0, ""⟩]
          | none => Except.error "missing parameter")
        (fun _ => "")
        { newFreteRequest "01243000" "04041002" with
            Servicos := [SvcSEDEXVarejo, SvcSEDEXACobrarVarejo, SvcSEDEX10Varejo],
            Mode := RequestMode.Single } =
      (some ⟨[("04014", parseServicoResp ⟨"04014", "", 5, "", "", "", "", "S", "N", 0, ""⟩),
              ("40215", parseServicoResp ⟨"40215", "", 5, "", "", "", "", "S", "N", 0, ""⟩)]⟩,
       none) ∧
    calcularFrete
        (fun vals =>
          match urlGet vals "nCdServico" with
          | some c =>
            if c == "40215" then Except.error "timeout"
            else Except.ok [⟨c, "", 5, "", "", "", "", "S", "N", 0, ""⟩]
          | none => Except.error "missing parameter")
        (fun _ => "")
        { newFreteRequest "01243000" "04041002" with
            Servicos := [SvcSEDEXVarejo, SvcSEDEXACobrarVarejo, SvcSEDEX10Varejo],
            Mode := RequestMode.Single } =
      (some ⟨[("04014", parseServicoResp ⟨"04014", "", 5, "", "", "", "", "S", "N", 0, ""⟩),
              ("40045", parseServicoResp ⟨"40045", "", 5, "", "", "", "", "S", "N", 0, ""⟩)]⟩,
       some "timeout") := by
  constructor
  · have h := claim_C2
      (fun vals =>
        match urlGet vals "nCdServico" with
        | some c =>
          if c == "40045" then Except.error "timeout"
          else Except.ok [⟨c, "", 5, "", "", "", "", "S", "N", 0, ""⟩]
        | none => Except.error "missing parameter")
      (fun _ => "")
      { newFreteRequest "01243000" "04041002" with
          Servicos := [SvcSEDEXVarejo, SvcSEDEXACobrarVarejo, SvcSEDEX10Varejo],
          Mode := RequestMode.Single }
      [cloneForService
          { newFreteRequest "01243000" "04041002" with
              Servicos := [SvcSEDEXVarejo, SvcSEDEXACobrarVarejo, SvcSEDEX10Varejo],
              Mode := RequestMode.Single } SvcSEDEXVarejo,
       cloneForService
          { newFreteRequest "01243000" "04041002" with
              Servicos := [SvcSEDEXVarejo, SvcSEDEXACobrarVarejo, SvcSEDEX10Varejo],
              Mode := RequestMode.Single } SvcSEDEXACobrarVarejo]
      (cloneForService
          { newFreteRequest "01243000" "04041002" with
              Servicos := [SvcSEDEXVarejo, SvcSEDEXACobrarVarejo, SvcSEDEX10Varejo],
              Mode := RequestMode.Single } SvcSEDEX10Varejo)
      (by decide) rfl
    exact h.trans rfl
  · have h := claim_C2
      (fun vals =>
        match urlGet vals "nCdServico" with
        | some c =>
          if c == "40215" then Except.error "timeout"
          else Except.ok [⟨c, "", 5, "", "", "", "", "S", "N", 0, ""⟩]
        | none => Except.error "missing parameter")
      (fun _ => "")
      { newFreteRequest "01243000" "04041002" with
          Servicos := [SvcSEDEXVarejo, SvcSEDEXACobrarVarejo, SvcSEDEX10Varejo],
          Mode := RequestMode.Single }
      [cloneForService
          { newFreteRequest "01243000" "04041002" with
              Servicos := [SvcSEDEXVarejo, SvcSEDEXACobrarVarejo, SvcSEDEX10Varejo],
              Mode := RequestMode.Single } SvcSEDEXVarejo,
       cloneForService
          { newFreteRequest "01243000" "04041002" with
              Servicos := [SvcSEDEXVarejo, SvcSEDEXACobrarVarejo, SvcSEDEX10Varejo],
              Mode := RequestMode.Single } SvcSEDEXACobrarVarejo]
      (cloneForService
          { newFreteRequest "01243000" "04041002" with
              Servicos := [SvcSEDEXVarejo, SvcSEDEXACobrarVarejo, SvcSEDEX10Varejo],
              Mode := RequestMode.Single } SvcSEDEX10Varejo)
      (by decide) rfl
    exact h.trans rfl

/-- C3 (modelled from the spec, see `calcularFreteFallback`): when the
substitute function is set, and in particular when the always-use-fallback
flag forces it, the pricing operation invokes the substitute on the request
parameters instead of performing the live network call (the result does not
depend on the network oracle at all); and when the caller context carries no
deadline the global timeout is the one applied to the live network call. -/
theorem claim_C3 (cfg : FallbackConfig) (ctx : GoContext)
    (net net2 : Option Nat → UrlValues → Except String (List ServicoResp))
    (decStr : Rat → String) (req : FreteRequest)
    (fb : UrlValues → Option FreteResponse × Option String) :
    (cfg.fallbackFunc = some fb →
      calcularFreteFallback cfg ctx net decStr req = fb (buildValues decStr req)) ∧
    (cfg.fallbackFunc = some fb →
      calcularFreteFallback cfg ctx net decStr req =
        calcularFreteFallback cfg ctx net2 decStr req) ∧
    (ctx.deadline = none → effectiveTimeout cfg ctx = some cfg.globalTimeout) ∧
    (cfg.fallbackFunc = none →
      calcularFreteFallback cfg ctx net decStr req =
        (match net (effectiveTimeout cfg ctx) (buildValues decStr req) with
         | Except.error e => (none, some e)
         | Except.ok values => (some ⟨parseServicos values⟩, none))) := by
  refine ⟨?_, ?_, ?_, ?_⟩
  · intro h
    simp [calcularFreteFallback, h]
  · intro h
    simp [calcularFreteFallback, h]
  · intro h
    simp [effectiveTimeout, h]
  · intro h
    simp [calcularFreteFallback, h]

/-- Witness for C3 at a concrete configuration: a set substitute function is
invoked instead of the live call, and with no caller deadline the effective
timeout is the global five-second timeout. -/
theorem claim_C3_witness :
    calcularFreteFallback ⟨some (fun _ => (none, some "fallback used")), true, 5000000000⟩ ⟨none⟩
        (fun _ _ => Except.ok []) (fun _ => "") (newFreteRequest "01243000" "04041002") =
      (none, some "fallback used") ∧
    effectiveTimeout ⟨none, false, 5000000000⟩ ⟨none⟩ = some 5000000000 := by
  constructor
  · exact (claim_C3 ⟨some (fun _ => (none, some "fallback used")), true, 5000000000⟩ ⟨none⟩
      (fun _ _ => Except.ok []) (fun _ _ => Except.ok []) (fun _ => "")
      (newFreteRequest "01243000" "04041002") (fun _ => (none, some "fallback used"))).1 rfl
  · exact (claim_C3 ⟨none, false, 5000000000⟩ ⟨none⟩ (fun _ _ => Except.ok [])
      (fun _ _ => Except.ok []) (fun _ => "") (newFreteRequest "01243000" "04041002")
      (fun _ => (none, some "fallback used"))).2.2.1 rfl

end Correios
